import Mathlib

/-!
Verification of the yokecd/blog site-configuration and content-collection
spec against the repository's source.

The repository consists of a site-configuration module (`src/config.ts`,
with a second variant of the same module among the unnamed sources) and a
collection of Markdown posts whose frontmatter blocks carry the post
metadata.  Both are transcribed below literally: the configuration both as
a typed record (`SiteConfig` / `SITE`) and as the ordered field list the
object literal is written as (`configFields`, `configFieldsB`), and each
post's frontmatter as the ordered key/value list of its YAML block.

Validation behaviour (absolute-URL check, timestamp well-formedness, the
SiteConfig Loader and its ConfigError) is not code of this repository: it
is modelled from the spec, and each such definition says so in its doc
comment.
-/

namespace YokeBlog

/-- Shape of the `editPost` field of `SITE` (src/config.ts, lines 14-18):
exactly the three fields `enabled`, `text`, `url`. -/
structure EditPost where
  enabled : Bool
  text : String
  url : String

/-- Typed shape of the `SITE` object literal of src/config.ts.  TypeScript
number literals used here are integers, so the numeric fields are `Int`. -/
structure SiteConfig where
  website : String
  author : String
  profile : String
  desc : String
  title : String
  ogImage : String
  lightAndDarkMode : Bool
  postPerIndex : Int
  postPerPage : Int
  scheduledPostMargin : Int
  showArchives : Bool
  showBackButton : Bool
  editPost : EditPost
  dynamicOgImage : Bool

/-- The `SITE` constant of src/config.ts, field for field. -/
def SITE : SiteConfig :=
  { website := "https:/yokecd.github.io/blog"
    author := "David Desmarais-Michaud"
    profile := "https://satnaing.dev/"
    desc := "A minimal, responsive and SEO-friendly Astro blog theme."
    title := "YokeBlogSpace"
    ogImage := ""
    lightAndDarkMode := true
    postPerIndex := 4
    postPerPage := 4
    scheduledPostMargin := 15 * 60 * 1000
    showArchives := false
    showBackButton := true
    editPost :=
      { enabled := true
        text := "Suggest Changes"
        url := "https://github.com/yokecd/blog/edit/main/" }
    dynamicOgImage := true }

/-- A value of a field of the configuration object literal: a string, a
boolean, an integer, or a nested object literal (used by `editPost`). -/
inductive ConfigValue where
  | str : String → ConfigValue
  | bool : Bool → ConfigValue
  | int : Int → ConfigValue
  | record : List (String × ConfigValue) → ConfigValue

/-- The `SITE` object literal of src/config.ts as the ordered list of the
fields it is written with. -/
def configFields : List (String × ConfigValue) :=
  [("website", ConfigValue.str "https:/yokecd.github.io/blog"),
   ("author", ConfigValue.str "David Desmarais-Michaud"),
   ("profile", ConfigValue.str "https://satnaing.dev/"),
   ("desc", ConfigValue.str "A minimal, responsive and SEO-friendly Astro blog theme."),
   ("title", ConfigValue.str "YokeBlogSpace"),
   ("ogImage", ConfigValue.str ""),
   ("lightAndDarkMode", ConfigValue.bool true),
   ("postPerIndex", ConfigValue.int 4),
   ("postPerPage", ConfigValue.int 4),
   ("scheduledPostMargin", ConfigValue.int (15 * 60 * 1000)),
   ("showArchives", ConfigValue.bool false),
   ("showBackButton", ConfigValue.bool true),
   ("editPost", ConfigValue.record
     [("enabled", ConfigValue.bool true),
      ("text", ConfigValue.str "Suggest Changes"),
      ("url", ConfigValue.str "https://github.com/yokecd/blog/edit/main/")]),
   ("dynamicOgImage", ConfigValue.bool true)]

/-- The `SITE` object literal of the unnamed config-module variant
(src/unnamed/part_000), which additionally carries a `base` field and uses
different `profile` and `desc` strings. -/
def configFieldsB : List (String × ConfigValue) :=
  [("website", ConfigValue.str "https:/yokecd.github.io/blog"),
   ("base", ConfigValue.str "blog"),
   ("author", ConfigValue.str "David Desmarais-Michaud"),
   ("profile", ConfigValue.str ""),
   ("desc", ConfigValue.str "Yoke Community Blog Space"),
   ("title", ConfigValue.str "YokeBlogSpace"),
   ("ogImage", ConfigValue.str ""),
   ("lightAndDarkMode", ConfigValue.bool true),
   ("postPerIndex", ConfigValue.int 4),
   ("postPerPage", ConfigValue.int 4),
   ("scheduledPostMargin", ConfigValue.int (15 * 60 * 1000)),
   ("showArchives", ConfigValue.bool false),
   ("showBackButton", ConfigValue.bool true),
   ("editPost", ConfigValue.record
     [("enabled", ConfigValue.bool true),
      ("text", ConfigValue.str "Suggest Changes"),
      ("url", ConfigValue.str "https://github.com/yokecd/blog/edit/main/")]),
   ("dynamicOgImage", ConfigValue.bool true)]

/-- A top-level statement of a config module: either a constant declaration
of a configuration object literal (with whether it is declared `as const`),
or an assignment to a field of an already-constructed object — the only
form a mutation of the configuration could take. -/
inductive Stmt where
  | constDecl (nm : String) (asConst : Bool) (value : List (String × ConfigValue))
  | fieldAssign (target fld : String) (value : ConfigValue)

/-- Whether the statement constructs a configuration record. -/
def Stmt.constructsConfig : Stmt → Bool
  | .constDecl _ _ _ => true
  | .fieldAssign _ _ _ => false

/-- Whether the statement mutates a field of a configuration record. -/
def Stmt.mutatesConfig : Stmt → Bool
  | .constDecl _ _ _ => false
  | .fieldAssign _ _ _ => true

/-- Whether the statement is a constant declaration marked `as const`. -/
def Stmt.declaredAsConst : Stmt → Bool
  | .constDecl _ asConst _ => asConst
  | .fieldAssign _ _ _ => false

/-- The top-level statements of src/config.ts: the module is exactly the
one `export const SITE = \x7b...\x7d as const` declaration. -/
def configModuleStmts : List Stmt := [Stmt.constDecl "SITE" true configFields]

/-- The top-level statements of the unnamed config-module variant
(src/unnamed/part_000): again exactly one `as const` declaration of SITE. -/
def configModuleStmtsB : List Stmt := [Stmt.constDecl "SITE" true configFieldsB]

/-- A value of a frontmatter key: a scalar written as a string, a boolean,
or a list of strings (used by `tags`). -/
inductive FmValue where
  | str : String → FmValue
  | bool : Bool → FmValue
  | list : List String → FmValue

/-- Frontmatter of src/data/blog/atc-resource-orchestration.md, keys in
source order.  The folded (`>`) description scalar is given with its lines
joined by spaces, as YAML folding reads it. -/
def atcFrontmatter : List (String × FmValue) :=
  [("author", FmValue.str "David Desmarais-Michaud"),
   ("pubDatetime", FmValue.str "2025-10-01"),
   ("title", FmValue.str "Resource Orchestration with the Yoke ATC"),
   ("slug", FmValue.str "yoke-resource-orchestration"),
   ("featured", FmValue.bool true),
   ("description", FmValue.str "If your application is more than just a simple list of manifests, you've probably felt the pain of orchestration in Kubernetes. We dive into a new model that replaces static YAML with simple, executable code, letting you build complex, reactive deployments without having to write a full-blown operator."),
   ("tags", FmValue.list ["Yoke", "AirTrafficController"])]

/-- Frontmatter of src/data/blog/interfacing-with-wasm-in-go.md, keys in
source order. -/
def wasmFrontmatter : List (String × FmValue) :=
  [("author", FmValue.str "David Desmarais-Michaud"),
   ("pubDatetime", FmValue.str "2025-03-23T01:25:07.421Z"),
   ("workInProgress", FmValue.bool true),
   ("title", FmValue.str "Interfacing with WebAssembly in Go"),
   ("slug", FmValue.str "interfacing-with-webassembly-in-go"),
   ("featured", FmValue.bool true),
   ("ogImage", FmValue.str "https://user-images.githubusercontent.com/53733092/215771435-25408246-2309-4f8b-a781-1f3d93bdf0ec.png"),
   ("tags", FmValue.list ["Go", "WebAssembly", "Yoke"]),
   ("description", FmValue.str "Dive into the world of WebAssembly and learn how to seamlessly and securely integrate it with system resources through a hands-on exploration of Host and Guest interactions.")]

/-- Frontmatter of the unnamed Markdown post (src/unnamed/part_001, the
Helm-compatibility post), keys in source order. -/
def helmFrontmatter : List (String × FmValue) :=
  [("author", FmValue.str "David Desmarais-Michaud"),
   ("pubDatetime", FmValue.str "2025-05-07"),
   ("title", FmValue.str "Yoke and Helm Compatibility"),
   ("slug", FmValue.str "helm-compatibility"),
   ("workInProgress", FmValue.bool true),
   ("featured", FmValue.bool true),
   ("tags", FmValue.list ["yoke", "helm"]),
   ("description", FmValue.str "Yoke wants to pivot away from Helm and YAML templating — but does that mean throwing the baby out with the bathwater? Let’s explore how Yoke keeps backwards compatibility with Helm in a code-first world.")]

/-- The content collection: the frontmatter of every Markdown entry under
the blog data directory. -/
def contentCollection : List (List (String × FmValue)) :=
  [atcFrontmatter, wasmFrontmatter, helmFrontmatter]

/-- The `slug` frontmatter value of an entry, when present as a string. -/
def slugOf (fm : List (String × FmValue)) : Option String :=
  match fm.lookup "slug" with
  | some (FmValue.str s) => some s
  | _ => none

/-- The natural number written by a list of decimal digit characters. -/
def digitsToNat (cs : List Char) : Nat :=
  cs.foldl (fun n c => 10 * n + (c.toNat - 48)) 0

/-- Modelled from the spec: a calendar-date scalar `YYYY-MM-DD` as the
frontmatter schema accepts for `pubDatetime` (the parser itself is part of
the external generator, not of this repository). -/
def validDateChars : List Char → Bool
  | [y1, y2, y3, y4, '-', m1, m2, '-', d1, d2] =>
    [y1, y2, y3, y4, m1, m2, d1, d2].all Char.isDigit &&
      (let m := digitsToNat [m1, m2]
       let d := digitsToNat [d1, d2]
       decide (1 ≤ m ∧ m ≤ 12 ∧ 1 ≤ d ∧ d ≤ 31))
  | _ => false

/-- Modelled from the spec: a time-of-day scalar `HH:MM:SS.mmmZ` as it
appears after the `T` of an ISO-8601 datetime. -/
def validTimeChars : List Char → Bool
  | [h1, h2, ':', m1, m2, ':', s1, s2, '.', f1, f2, f3, 'Z'] =>
    [h1, h2, m1, m2, s1, s2, f1, f2, f3].all Char.isDigit &&
      decide (digitsToNat [h1, h2] < 24 ∧ digitsToNat [m1, m2] < 60 ∧
        digitsToNat [s1, s2] < 60)
  | _ => false

/-- Modelled from the spec: `pubDatetime` is a timestamp — a valid date, or
a valid date followed by `T` and a valid time (the two scalar forms the
collection uses). -/
def validTimestamp (s : String) : Bool :=
  let cs := s.toList
  validDateChars cs ||
    (validDateChars (cs.take 10) &&
      (match cs.drop 10 with
       | 'T' :: rest => validTimeChars rest
       | _ => false))

/-- Whether an entry's frontmatter carries the required `pubDatetime` key
with a valid timestamp value. -/
def hasValidPubDatetime (fm : List (String × FmValue)) : Bool :=
  match fm.lookup "pubDatetime" with
  | some (FmValue.str s) => validTimestamp s
  | _ => false

/-- Helper for `isAbsoluteUrl`: the remainder of the string after the
scheme must be the literal separator `://` followed by a nonempty host. -/
def afterScheme : List Char → Bool
  | ':' :: '/' :: '/' :: c :: _ => c != '/'
  | _ => false

/-- Helper for `isAbsoluteUrl`: at least one letter of scheme, then the
`://` separator and a host. -/
def schemeThenSep : List Char → Bool
  | [] => false
  | c :: rest => if c.isAlpha then (afterScheme rest || schemeThenSep rest) else false

/-- Modelled from the spec: `website` must be a well-formed absolute URL —
a scheme, followed by the literal separator `://` and a host (the URL
validation itself belongs to the external build pipeline, not to this
repository). -/
def isAbsoluteUrl (s : String) : Bool :=
  schemeThenSep s.toList

/-- Modelled from the spec: the error the SiteConfig Loader fails with when
a configuration field fails validation. -/
inductive ConfigError where
  | badWebsiteUrl
  | nonPositivePostPerIndex
  | nonPositivePostPerPage
  | negativeScheduledPostMargin

/-- Modelled from the spec: the SiteConfig Loader — validate that `website`
is a well-formed absolute URL, that the two pagination sizes are positive,
and that `scheduledPostMargin` is non-negative; fail with a `ConfigError`
on the first violated constraint, and otherwise return the record
unchanged. -/
def loadConfig (c : SiteConfig) : Except ConfigError SiteConfig :=
  if isAbsoluteUrl c.website = false then Except.error ConfigError.badWebsiteUrl
  else if c.postPerIndex ≤ 0 then Except.error ConfigError.nonPositivePostPerIndex
  else if c.postPerPage ≤ 0 then Except.error ConfigError.nonPositivePostPerPage
  else if c.scheduledPostMargin < 0 then Except.error ConfigError.negativeScheduledPostMargin
  else Except.ok c

/-- C1: the `website` value of the SITE constant is the literal
`https:/yokecd.github.io/blog` — a single slash after the scheme — so
parsing it as an absolute URL (scheme, then the separator `://`, then a
host) fails, while the intended string with the double slash parses; the
unnamed config variant carries the same misspelt value. -/
theorem site_website_missing_slash :
    SITE.website = "https:/yokecd.github.io/blog" ∧
    isAbsoluteUrl SITE.website = false ∧
    isAbsoluteUrl "https://yokecd.github.io/blog" = true ∧
    configFieldsB.lookup "website" = some (ConfigValue.str "https:/yokecd.github.io/blog") :=
  ⟨rfl, rfl, rfl, rfl⟩

/-- C2: the slugs of the three content entries are exactly
`yoke-resource-orchestration`, `interfacing-with-webassembly-in-go` and
`helm-compatibility`, and that list has no duplicate, so the collection
satisfies the slug-uniqueness invariant and a build over it raises no
duplicate-slug error. -/
theorem content_slugs_unique :
    contentCollection.filterMap slugOf =
      ["yoke-resource-orchestration", "interfacing-with-webassembly-in-go",
        "helm-compatibility"] ∧
    (contentCollection.filterMap slugOf).Nodup ∧
    contentCollection.length = 3 :=
  ⟨rfl, by decide, rfl⟩

/-- C3: each config module consists of exactly one statement constructing a
configuration record, that statement is an `as const` declaration, and no
statement of either module mutates a field of the record — one read-only
SiteConfig instance per build. -/
theorem site_config_singleton_readonly :
    configModuleStmts.countP Stmt.constructsConfig = 1 ∧
    configModuleStmtsB.countP Stmt.constructsConfig = 1 ∧
    configModuleStmts.countP Stmt.mutatesConfig = 0 ∧
    configModuleStmtsB.countP Stmt.mutatesConfig = 0 ∧
    configModuleStmts.all Stmt.declaredAsConst = true ∧
    configModuleStmtsB.all Stmt.declaredAsConst = true :=
  ⟨rfl, rfl, rfl, rfl, rfl, rfl⟩

/-- C4: the pagination-size fields of SITE are the integers 4 and 4, both
strictly positive. -/
theorem site_pagination_sizes_positive :
    SITE.postPerIndex = 4 ∧ SITE.postPerPage = 4 ∧
    0 < SITE.postPerIndex ∧ 0 < SITE.postPerPage :=
  ⟨rfl, rfl, by decide, by decide⟩

/-- C5: for every configuration whose posts-per-page field is not positive,
the SiteConfig Loader fails with a ConfigError and never returns an
accepted configuration, so no page is rendered from it. -/
theorem loadConfig_rejects_nonpositive_postPerPage (c : SiteConfig)
    (h : c.postPerPage ≤ 0) :
    (∃ e, loadConfig c = Except.error e) ∧ ∀ c2, loadConfig c ≠ Except.ok c2 := by
  have herr : ∃ e, loadConfig c = Except.error e := by
    unfold loadConfig
    repeat' split
    all_goals exact ⟨_, rfl⟩
  refine ⟨herr, fun c2 hok => ?_⟩
  obtain ⟨e, he⟩ := herr
  rw [he] at hok
  exact Except.noConfusion hok

/-- Witness for C5: the loader rejects the concrete configuration obtained
from SITE by setting its posts-per-page field to 0. -/
theorem loadConfig_rejects_nonpositive_postPerPage_witness :
    ({ SITE with postPerPage := 0 } : SiteConfig).postPerPage ≤ 0 ∧
    ((∃ e, loadConfig { SITE with postPerPage := 0 } = Except.error e) ∧
      ∀ c2, loadConfig { SITE with postPerPage := 0 } ≠ Except.ok c2) :=
  ⟨by decide,
    loadConfig_rejects_nonpositive_postPerPage { SITE with postPerPage := 0 } (by decide)⟩

/-- C6: the scheduled-post margin of SITE is the integer 15 * 60 * 1000 =
900000 milliseconds, a non-negative duration. -/
theorem site_scheduled_post_margin_nonneg :
    SITE.scheduledPostMargin = 15 * 60 * 1000 ∧
    SITE.scheduledPostMargin = 900000 ∧
    0 ≤ SITE.scheduledPostMargin :=
  ⟨rfl, by decide, by decide⟩

/-- C7: every entry of the content collection — each of the three Markdown
posts — carries the required `pubDatetime` key, and its value is a valid
date or datetime scalar. -/
theorem content_pubDatetime_present_valid :
    hasValidPubDatetime atcFrontmatter = true ∧
    hasValidPubDatetime wasmFrontmatter = true ∧
    hasValidPubDatetime helmFrontmatter = true ∧
    contentCollection.all hasValidPubDatetime = true :=
  ⟨rfl, rfl, rfl, rfl⟩

/-- C8: the `editPost` field of SITE is a record of exactly the shape
\x7benabled: boolean, text: string, url: string\x7d, with enabled = true,
text = "Suggest Changes" and the GitHub edit URL, in both config
variants. -/
theorem site_editPost_shape :
    SITE.editPost =
      EditPost.mk true "Suggest Changes" "https://github.com/yokecd/blog/edit/main/" ∧
    configFields.lookup "editPost" = some (ConfigValue.record
      [("enabled", ConfigValue.bool true),
       ("text", ConfigValue.str "Suggest Changes"),
       ("url", ConfigValue.str "https://github.com/yokecd/blog/edit/main/")]) ∧
    configFieldsB.lookup "editPost" = some (ConfigValue.record
      [("enabled", ConfigValue.bool true),
       ("text", ConfigValue.str "Suggest Changes"),
       ("url", ConfigValue.str "https://github.com/yokecd/blog/edit/main/")]) :=
  ⟨rfl, rfl, rfl⟩

/-- C9: neither config variant has a field named `postsPerIndex` or
`postsPerPage`; the pagination sizes live under the singular names
`postPerIndex` and `postPerPage`, both bound to the integer 4. -/
theorem site_pagination_field_names_singular :
    configFields.lookup "postsPerIndex" = none ∧
    configFields.lookup "postsPerPage" = none ∧
    configFieldsB.lookup "postsPerIndex" = none ∧
    configFieldsB.lookup "postsPerPage" = none ∧
    configFields.lookup "postPerIndex" = some (ConfigValue.int 4) ∧
    configFields.lookup "postPerPage" = some (ConfigValue.int 4) ∧
    configFieldsB.lookup "postPerIndex" = some (ConfigValue.int 4) ∧
    configFieldsB.lookup "postPerPage" = some (ConfigValue.int 4) :=
  ⟨rfl, rfl, rfl, rfl, rfl, rfl, rfl, rfl⟩

/-- C10: both config variants carry a string `profile` field and a string
`ogImage` field (the latter the empty string), and the unnamed variant
additionally carries the string field `base` = "blog", absent from
src/config.ts. -/
theorem site_config_extra_fields :
    configFields.lookup "profile" = some (ConfigValue.str "https://satnaing.dev/") ∧
    configFieldsB.lookup "profile" = some (ConfigValue.str "") ∧
    configFields.lookup "ogImage" = some (ConfigValue.str "") ∧
    configFieldsB.lookup "ogImage" = some (ConfigValue.str "") ∧
    configFieldsB.lookup "base" = some (ConfigValue.str "blog") ∧
    configFields.lookup "base" = none :=
  ⟨rfl, rfl, rfl, rfl, rfl, rfl⟩

end YokeBlog
